import Mathlib

/-!
Shallow embedding of `src/main.py`, a FastAPI + MongoDB CRUD service for
appointment records.

* MongoDB `ObjectId` values are modelled as natural numbers below `16 ^ 24`;
  their string form is 24 lowercase hex digits (`oidToString`), and the
  `ObjectId(appointment_id)` constructor is `parseObjectId`, which fails
  (returns `none`, modelling the raised exception) on malformed strings.
* The `appointments` collection is a `Store`: an association list of
  `(ObjectId, document)` pairs together with the next ObjectId the store will
  assign.  `insert_one`, `find_one`, `update_one` (with its `modified_count`)
  and `delete_one` (with its `deleted_count`) are modelled on this list.
* Pydantic's `AppointmentBase` is a structure whose optional fields carry the
  source defaults (`status = "Pending"`, `zoom_link = None`); an omitted field
  in a request payload is a field left to its default value.
* Each route handler becomes a function from the store (and its arguments) to
  the new store and an `Except HTTPError` result; the bare `except:` clauses
  that turn every failure into HTTP 404 are reflected in the `Option` matches.
-/

/-- Lowercase hex digit for a value `0 ≤ n < 16` (as in `str(ObjectId)`). -/
def hexDigitChar (n : Nat) : Char :=
  if n < 10 then Char.ofNat (48 + n) else Char.ofNat (87 + n)

/-- Fixed-width big-endian hex rendering: `k` digits of `n`. -/
def toHexAux : Nat → Nat → List Char
  | 0, _ => []
  | k + 1, n => toHexAux k (n / 16) ++ [hexDigitChar (n % 16)]

/-- `str(oid)`: the 24-character lowercase hex string of an ObjectId. -/
def oidToString (oid : Nat) : String :=
  ⟨toHexAux 24 oid⟩

/-- Numeric value of a hex character (both cases), `none` if not hex. -/
def hexCharVal (c : Char) : Option Nat :=
  if 48 ≤ c.toNat ∧ c.toNat ≤ 57 then some (c.toNat - 48)
  else if 97 ≤ c.toNat ∧ c.toNat ≤ 102 then some (c.toNat - 87)
  else if 65 ≤ c.toNat ∧ c.toNat ≤ 70 then some (c.toNat - 55)
  else none

/-- One step of big-endian hex parsing. -/
def hexStep (acc : Option Nat) (c : Char) : Option Nat :=
  acc.bind fun a => (hexCharVal c).map fun v => 16 * a + v

/-- Parse a list of hex characters; `none` if any character is not hex. -/
def parseHexChars (cs : List Char) : Option Nat :=
  cs.foldl hexStep (some 0)

/-- `ObjectId(appointment_id)`: succeeds exactly on 24-character hex strings,
`none` models the `InvalidId` exception swallowed by the handlers. -/
def parseObjectId (s : String) : Option Nat :=
  if s.length = 24 then parseHexChars s.data else none

/-- Pydantic model `AppointmentBase` (also `AppointmentCreate`, which adds
nothing): the mutable fields of an appointment with the source's defaults for
the optional fields. -/
structure AppointmentBase where
  name : String
  email : String
  service : String
  date : String
  time : String
  topic : String
  status : Option String := some "Pending"
  zoom_link : Option String := none
deriving DecidableEq, Repr

/-- `class AppointmentCreate(AppointmentBase): pass` -/
abbrev AppointmentCreate := AppointmentBase

/-- Pydantic model `Appointment`: the mutable fields plus the string `id`. -/
structure Appointment extends AppointmentBase where
  id : String
deriving DecidableEq, Repr

/-- The `appointments` MongoDB collection: documents keyed by ObjectId, plus
the next ObjectId the store will assign. -/
structure Store where
  docs : List (Nat × AppointmentBase)
  nextOid : Nat
deriving DecidableEq, Repr

/-- `collection.find_one({"_id": oid})`. -/
def findOneDoc (s : Store) (oid : Nat) : Option AppointmentBase :=
  (s.docs.find? fun e => e.1 == oid).map (·.2)

/-- `collection.insert_one(doc)`: appends the document under a fresh ObjectId
and returns `inserted_id`. -/
def insertOne (s : Store) (d : AppointmentBase) : Store × Nat :=
  ({ docs := s.docs ++ [(s.nextOid, d)], nextOid := s.nextOid + 1 }, s.nextOid)

/-- Replace the first entry with the given key (MongoDB updates one document). -/
def setFirst (oid : Nat) (d : AppointmentBase) :
    List (Nat × AppointmentBase) → List (Nat × AppointmentBase)
  | [] => []
  | e :: es => if e.1 = oid then (oid, d) :: es else e :: setFirst oid d es

/-- Remove the first entry with the given key (`delete_one`). -/
def eraseFirst (oid : Nat) :
    List (Nat × AppointmentBase) → List (Nat × AppointmentBase)
  | [] => []
  | e :: es => if e.1 = oid then es else e :: eraseFirst oid es

/-- `collection.update_one({"_id": oid}, {"$set": ...})` where the `$set`
payload rewrites the matched document by `f`.  Returns the new store and
`modified_count`: `0` when no document matches or the `$set` leaves the
matched document unchanged, `1` otherwise. -/
def updateOneWith (s : Store) (oid : Nat) (f : AppointmentBase → AppointmentBase) :
    Store × Nat :=
  match findOneDoc s oid with
  | none => (s, 0)
  | some old =>
    if f old = old then (s, 0)
    else ({ s with docs := setFirst oid (f old) s.docs }, 1)

/-- `collection.delete_one({"_id": oid})`: the new store and `deleted_count`. -/
def deleteOneDoc (s : Store) (oid : Nat) : Store × Nat :=
  match findOneDoc s oid with
  | none => (s, 0)
  | some _ => ({ s with docs := eraseFirst oid s.docs }, 1)

/-- `fastapi.HTTPException` as surfaced to the client. -/
structure HTTPError where
  status_code : Nat
  detail : String
deriving DecidableEq, Repr

/-- The one error every handler raises: `HTTPException(404, "Appointment not found")`. -/
def notFoundError : HTTPError :=
  ⟨404, "Appointment not found"⟩

/-- `document_to_appointment`: stringify `_id` and build the response model. -/
def document_to_appointment (oid : Nat) (d : AppointmentBase) : Appointment :=
  { toAppointmentBase := d, id := oidToString oid }

/-- `POST /appointments/`: insert `appointment.dict()`, return the record with
the stringified `inserted_id`. -/
def create_appointment (s : Store) (appointment : AppointmentCreate) :
    Store × Appointment :=
  ((insertOne s appointment).1,
    { toAppointmentBase := appointment, id := oidToString (insertOne s appointment).2 })

/-- `GET /appointments/`: every document in the collection, converted. -/
def get_appointments (s : Store) : List Appointment :=
  s.docs.map fun e => document_to_appointment e.1 e.2

/-- `GET /appointments/{appointment_id}`: a malformed id (the `ObjectId`
constructor raising), as well as a missing document, lands in the bare
`except:` and becomes the same 404. -/
def get_appointment (s : Store) (appointment_id : String) :
    Except HTTPError Appointment :=
  match parseObjectId appointment_id with
  | none => .error notFoundError
  | some oid =>
    match findOneDoc s oid with
    | none => .error notFoundError
    | some d => .ok (document_to_appointment oid d)

/-- `PUT /appointments/{appointment_id}`: `$set` the full payload dict, 404 on
`modified_count == 0`, otherwise re-fetch and return the updated record.  A
vanished document on the re-fetch would raise inside the `try` and also become
the 404. -/
def update_appointment (s : Store) (appointment_id : String)
    (appointment : AppointmentCreate) : Store × Except HTTPError Appointment :=
  match parseObjectId appointment_id with
  | none => (s, .error notFoundError)
  | some oid =>
    if (updateOneWith s oid fun _ => appointment).2 = 0 then
      ((updateOneWith s oid fun _ => appointment).1, .error notFoundError)
    else
      match findOneDoc (updateOneWith s oid fun _ => appointment).1 oid with
      | none => ((updateOneWith s oid fun _ => appointment).1, .error notFoundError)
      | some d =>
        ((updateOneWith s oid fun _ => appointment).1,
          .ok (document_to_appointment oid d))

/-- `DELETE /appointments/{appointment_id}`: 404 on `deleted_count == 0`. -/
def delete_appointment (s : Store) (appointment_id : String) :
    Store × Except HTTPError String :=
  match parseObjectId appointment_id with
  | none => (s, .error notFoundError)
  | some oid =>
    if (deleteOneDoc s oid).2 = 0 then
      ((deleteOneDoc s oid).1, .error notFoundError)
    else ((deleteOneDoc s oid).1, .ok "Appointment deleted successfully")

/-- `PUT /appointments/{appointment_id}/approve`: `$set {"status": "Approved"}`. -/
def approve_appointment (s : Store) (appointment_id : String) :
    Store × Except HTTPError String :=
  match parseObjectId appointment_id with
  | none => (s, .error notFoundError)
  | some oid =>
    if (updateOneWith s oid fun d => { d with status := some "Approved" }).2 = 0 then
      ((updateOneWith s oid fun d => { d with status := some "Approved" }).1,
        .error notFoundError)
    else
      ((updateOneWith s oid fun d => { d with status := some "Approved" }).1,
        .ok "Appointment approved successfully")

/-- `PUT /appointments/{appointment_id}/zoom-link`: `$set {"zoom_link": ...}`. -/
def set_zoom_link (s : Store) (appointment_id : String) (zoom_link : String) :
    Store × Except HTTPError String :=
  match parseObjectId appointment_id with
  | none => (s, .error notFoundError)
  | some oid =>
    if (updateOneWith s oid fun d => { d with zoom_link := some zoom_link }).2 = 0 then
      ((updateOneWith s oid fun d => { d with zoom_link := some zoom_link }).1,
        .error notFoundError)
    else
      ((updateOneWith s oid fun d => { d with zoom_link := some zoom_link }).1,
        .ok "Zoom link added successfully")

/-- `modified_count` the store reports during a `$set`-by-id request: `0` when
the id string never reaches `update_one` (the `ObjectId` constructor raised),
otherwise the count `update_one` returns. -/
def requestModifiedCount (s : Store) (appointment_id : String)
    (f : AppointmentBase → AppointmentBase) : Nat :=
  match parseObjectId appointment_id with
  | none => 0
  | some oid => (updateOneWith s oid f).2

/-- A sequence of `POST /appointments/` calls, threading the store; returns
the final store and the created records in order. -/
def createMany (s : Store) (ps : List AppointmentCreate) :
    Store × List Appointment :=
  match ps with
  | [] => (s, [])
  | p :: rest =>
    ((createMany (create_appointment s p).1 rest).1,
      (create_appointment s p).2 :: (createMany (create_appointment s p).1 rest).2)

/-! ### Identifier string lemmas -/

lemma hexCharVal_hexDigitChar : ∀ n < 16, hexCharVal (hexDigitChar n) = some n := by
  decide

lemma toHexAux_length : ∀ (k n : Nat), (toHexAux k n).length = k := by
  intro k
  induction k with
  | zero => intro n; simp [toHexAux]
  | succ k ih => intro n; simp [toHexAux, ih]

lemma oidToString_length (oid : Nat) : (oidToString oid).length = 24 := by
  simp [oidToString, String.length, toHexAux_length]

lemma oidToString_ne_empty (oid : Nat) : oidToString oid ≠ "" := by
  intro h
  have := oidToString_length oid
  rw [h] at this
  simp [String.length] at this

lemma foldl_hexStep_toHexAux :
    ∀ (k acc n : Nat), n < 16 ^ k →
      (toHexAux k n).foldl hexStep (some acc) = some (acc * 16 ^ k + n) := by
  intro k
  induction k with
  | zero =>
    intro acc n hn
    interval_cases n
    simp [toHexAux]
  | succ k ih =>
    intro acc n hn
    rw [toHexAux, List.foldl_append]
    have hdiv : n / 16 < 16 ^ k := by
      apply Nat.div_lt_of_lt_mul
      rw [← pow_succ']
      exact hn
    rw [ih acc (n / 16) hdiv]
    simp only [List.foldl_cons, List.foldl_nil, hexStep, Option.bind_some,
      hexCharVal_hexDigitChar (n % 16) (Nat.mod_lt n (by norm_num)), Option.map_some]
    show some (16 * (acc * 16 ^ k + n / 16) + n % 16) = some (acc * 16 ^ (k + 1) + n)
    congr 1
    calc 16 * (acc * 16 ^ k + n / 16) + n % 16
        = acc * (16 ^ k * 16) + (16 * (n / 16) + n % 16) := by ring
      _ = acc * 16 ^ (k + 1) + n := by rw [Nat.div_add_mod, ← pow_succ]

lemma parseObjectId_oidToString (oid : Nat) (h : oid < 16 ^ 24) :
    parseObjectId (oidToString oid) = some oid := by
  have hlen := oidToString_length oid
  rw [parseObjectId, if_pos hlen, oidToString, parseHexChars]
  show (toHexAux 24 oid).foldl hexStep (some 0) = some oid
  rw [foldl_hexStep_toHexAux 24 0 oid h]
  simp

/-! ### Association-list store lemmas -/

lemma find?_eq_none_of_keys (a : Nat) (l : List (Nat × AppointmentBase))
    (h : ∀ e ∈ l, e.1 ≠ a) : l.find? (fun e => e.1 == a) = none := by
  rw [List.find?_eq_none]
  intro e he
  simpa using h e he

lemma find?_setFirst_self (a : Nat) (d : AppointmentBase)
    (l : List (Nat × AppointmentBase)) (h : (l.find? (fun e => e.1 == a)).isSome) :
    (setFirst a d l).find? (fun e => e.1 == a) = some (a, d) := by
  induction l with
  | nil => simp [List.find?] at h
  | cons e es ih =>
    by_cases hk : e.1 = a
    · rw [setFirst, if_pos hk]
      exact List.find?_cons_of_pos _ (by simp)
    · rw [setFirst, if_neg hk, List.find?_cons_of_neg _ (by simp [hk])]
      apply ih
      rwa [List.find?_cons_of_neg _ (by simp [hk])] at h

lemma find?_setFirst_ne (a b : Nat) (d : AppointmentBase)
    (l : List (Nat × AppointmentBase)) (h : b ≠ a) :
    (setFirst a d l).find? (fun e => e.1 == b) = l.find? (fun e => e.1 == b) := by
  induction l with
  | nil => simp [setFirst]
  | cons e es ih =>
    by_cases hk : e.1 = a
    · rw [setFirst, if_pos hk, List.find?_cons_of_neg _ (by simp [Ne.symm h]),
        List.find?_cons_of_neg _ (by simp [hk, Ne.symm h])]
    · rw [setFirst, if_neg hk]
      by_cases heb : e.1 = b
      · rw [List.find?_cons_of_pos _ (by simp [heb]),
          List.find?_cons_of_pos _ (by simp [heb])]
      · rw [List.find?_cons_of_neg _ (by simp [heb]),
          List.find?_cons_of_neg _ (by simp [heb])]
        exact ih

lemma find?_eraseFirst_self (a : Nat) (l : List (Nat × AppointmentBase))
    (h : (l.map Prod.fst).Nodup) :
    (eraseFirst a l).find? (fun e => e.1 == a) = none := by
  induction l with
  | nil => simp [eraseFirst]
  | cons e es ih =>
    rw [List.map_cons, List.nodup_cons] at h
    by_cases hk : e.1 = a
    · rw [eraseFirst, if_pos hk]
      apply find?_eq_none_of_keys
      intro x hx hxa
      apply h.1
      rw [hk, ← hxa]
      exact List.mem_map_of_mem Prod.fst hx
    · rw [eraseFirst, if_neg hk, List.find?_cons_of_neg _ (by simp [hk])]
      exact ih h.2

lemma findOneDoc_setFirst_self (s : Store) (a : Nat) (d old : AppointmentBase)
    (h : findOneDoc s a = some old) :
    findOneDoc { s with docs := setFirst a d s.docs } a = some d := by
  have hsome : (s.docs.find? fun e => e.1 == a).isSome := by
    cases hf : s.docs.find? fun e => e.1 == a
    · rw [findOneDoc, hf] at h
      simp at h
    · simp
  rw [findOneDoc]
  show (((setFirst a d s.docs).find? fun e => e.1 == a).map (·.2)) = some d
  rw [find?_setFirst_self a d s.docs hsome]
  rfl

lemma findOneDoc_setFirst_ne (s : Store) (a b : Nat) (d : AppointmentBase)
    (h : b ≠ a) :
    findOneDoc { s with docs := setFirst a d s.docs } b = findOneDoc s b := by
  rw [findOneDoc, findOneDoc]
  show (((setFirst a d s.docs).find? fun e => e.1 == b).map (·.2)) = _
  rw [find?_setFirst_ne a b d s.docs h]

lemma updateOneWith_of_ne (s : Store) (oid : Nat) (f : AppointmentBase → AppointmentBase)
    (old : AppointmentBase) (hfind : findOneDoc s oid = some old) (hne : f old ≠ old) :
    updateOneWith s oid f = ({ s with docs := setFirst oid (f old) s.docs }, 1) := by
  rw [updateOneWith, hfind]
  simp [hne]

lemma updateOneWith_of_eq (s : Store) (oid : Nat) (f : AppointmentBase → AppointmentBase)
    (old : AppointmentBase) (hfind : findOneDoc s oid = some old) (heq : f old = old) :
    updateOneWith s oid f = (s, 0) := by
  rw [updateOneWith, hfind]
  simp [heq]

lemma updateOneWith_of_none (s : Store) (oid : Nat) (f : AppointmentBase → AppointmentBase)
    (hfind : findOneDoc s oid = none) :
    updateOneWith s oid f = (s, 0) := by
  rw [updateOneWith, hfind]

/-! ### Sample data for concrete witnesses (the example of spec §8) -/

/-- The empty collection with ObjectId counter at zero. -/
def emptyStore : Store :=
  ⟨[], 0⟩

/-- The example payload of the spec: required fields only. -/
def sampleCreate : AppointmentCreate :=
  { name := "A", email := "a@x.com", service := "Consult", date := "2024-01-01",
    time := "10:00", topic := "Intro" }

/-- A second payload, differing from `sampleCreate`. -/
def sampleCreate2 : AppointmentCreate :=
  { name := "B", email := "b@x.com", service := "Audit", date := "2024-02-02",
    time := "11:00", topic := "Next" }

/-- A one-record store: `sampleCreate` inserted into the empty store. -/
def store1 : Store :=
  (create_appointment emptyStore sampleCreate).1

/-- A store with the one record of `store1` approved. -/
def approvedStore : Store :=
  (approve_appointment store1 (oidToString 0)).1

lemma update_appointment_of_changed (s : Store) (id : String) (p : AppointmentCreate)
    (oid : Nat) (old : AppointmentBase)
    (hparse : parseObjectId id = some oid)
    (hfind : findOneDoc s oid = some old)
    (hne : p ≠ old) :
    update_appointment s id p =
      ({ s with docs := setFirst oid p s.docs },
        .ok { toAppointmentBase := p, id := oidToString oid }) := by
  have hup : updateOneWith s oid (fun _ => p) =
      ({ s with docs := setFirst oid p s.docs }, 1) :=
    updateOneWith_of_ne s oid _ old hfind hne
  have hfound := findOneDoc_setFirst_self s oid p old hfind
  simp only [update_appointment, hparse, hup, hfound, document_to_appointment]
  simp

/-! ### Claim theorems -/

/-- C1: an update-by-id whose payload supplies (new) values for the mutable
fields replaces all mutable fields with exactly the payload, keeps the record
stored under the same identifier (returning it with that identifier's string
form), and changes no other record. -/
theorem update_full_replacement (s : Store) (id : String) (p : AppointmentCreate)
    (oid : Nat) (old : AppointmentBase)
    (hparse : parseObjectId id = some oid)
    (hfind : findOneDoc s oid = some old)
    (hne : p ≠ old) :
    (update_appointment s id p).2 =
      .ok { toAppointmentBase := p, id := oidToString oid } ∧
    findOneDoc (update_appointment s id p).1 oid = some p ∧
    ∀ b, b ≠ oid → findOneDoc (update_appointment s id p).1 b = findOneDoc s b := by
  rw [update_appointment_of_changed s id p oid old hparse hfind hne]
  refine ⟨rfl, findOneDoc_setFirst_self s oid p old hfind, fun b hb => ?_⟩
  exact findOneDoc_setFirst_ne s oid b p hb

/-- Witness for C1: replacing the single record of `store1`. -/
theorem update_full_replacement_witness :
    (update_appointment store1 (oidToString 0) sampleCreate2).2 =
      .ok { toAppointmentBase := sampleCreate2, id := oidToString 0 } ∧
    findOneDoc (update_appointment store1 (oidToString 0) sampleCreate2).1 0 =
      some sampleCreate2 ∧
    ∀ b, b ≠ 0 → findOneDoc (update_appointment store1 (oidToString 0) sampleCreate2).1 b =
      findOneDoc store1 b :=
  update_full_replacement store1 (oidToString 0) sampleCreate2 0 sampleCreate rfl rfl
    (by decide)

/-- C2: an update-by-id fails with the 404 NotFound error exactly when the
store reports zero modified documents; in particular it fails when the id
matches no record, and it fails spuriously when the payload equals the
record's current values. -/
theorem update_notfound_iff_zero_modified (s : Store) (id : String)
    (p : AppointmentCreate) :
    ((update_appointment s id p).2 = .error notFoundError ↔
      requestModifiedCount s id (fun _ => p) = 0) ∧
    (∀ oid, parseObjectId id = some oid → findOneDoc s oid = none →
      (update_appointment s id p).2 = .error notFoundError) ∧
    (∀ oid, parseObjectId id = some oid → findOneDoc s oid = some p →
      (update_appointment s id p).2 = .error notFoundError) := by
  cases hp : parseObjectId id with
  | none =>
    refine ⟨?_, ?_, ?_⟩
    · simp [update_appointment, requestModifiedCount, hp]
    · intro oid hpo _
      simp at hpo
    · intro oid hpo _
      simp at hpo
  | some oid =>
    cases hf : findOneDoc s oid with
    | none =>
      have h0 := updateOneWith_of_none s oid (fun _ => p) hf
      refine ⟨?_, ?_, ?_⟩
      · simp [update_appointment, requestModifiedCount, hp, h0]
      · intro oid2 hpo hfn
        simp [update_appointment, hp, h0]
      · intro oid2 hpo hfs
        obtain rfl := Option.some.inj hpo
        rw [hf] at hfs
        cases hfs
    | some old =>
      by_cases hpe : p = old
      · subst hpe
        have h0 := updateOneWith_of_eq s oid (fun _ => p) p hf rfl
        refine ⟨?_, ?_, ?_⟩
        · simp [update_appointment, requestModifiedCount, hp, h0]
        · intro oid2 hpo hfn
          obtain rfl := Option.some.inj hpo
          rw [hf] at hfn
          cases hfn
        · intro oid2 hpo hfs
          simp [update_appointment, hp, h0]
      · have h1 := update_appointment_of_changed s id p oid old hp hf hpe
        have hup : updateOneWith s oid (fun _ => p) =
            ({ s with docs := setFirst oid p s.docs }, 1) :=
          updateOneWith_of_ne s oid _ old hf hpe
        refine ⟨?_, ?_, ?_⟩
        · rw [h1]
          simp [requestModifiedCount, hp, hup]
        · intro oid2 hpo hfn
          obtain rfl := Option.some.inj hpo
          rw [hf] at hfn
          cases hfn
        · intro oid2 hpo hfs
          obtain rfl := Option.some.inj hpo
          rw [hf] at hfs
          exact absurd (Option.some.inj hfs).symm hpe

/-- Witness for C2: updating the single record of `store1` with its current
values spuriously yields the NotFound error. -/
theorem update_notfound_iff_zero_modified_witness :
    (update_appointment store1 (oidToString 0) sampleCreate).2 =
      .error notFoundError :=
  (update_notfound_iff_zero_modified store1 (oidToString 0) sampleCreate).2.2 0 rfl rfl

/-- C3: creating with the required fields and the optional fields left to the
model defaults (omitted `status`, omitted `zoom_link`) returns a record with
status "Pending", an absent zoom link, and a non-empty assigned identifier. -/
theorem create_defaults_pending (s : Store) (n e sv dt t tp : String) :
    (create_appointment s
      { name := n, email := e, service := sv, date := dt, time := t, topic := tp }).2.status =
      some "Pending" ∧
    (create_appointment s
      { name := n, email := e, service := sv, date := dt, time := t, topic := tp }).2.zoom_link =
      none ∧
    (create_appointment s
      { name := n, email := e, service := sv, date := dt, time := t, topic := tp }).2.id ≠ "" :=
  ⟨rfl, rfl, oidToString_ne_empty _⟩

lemma setStatus_self (d : AppointmentBase) (o : Option String) (h : d.status = o) :
    { d with status := o } = d := by
  cases d
  simp_all

lemma setZoom_self (d : AppointmentBase) (o : Option String) (h : d.zoom_link = o) :
    { d with zoom_link := o } = d := by
  cases d
  simp_all

lemma find?_append_of_none {α : Type} (p : α → Bool) (l1 l2 : List α)
    (h : l1.find? p = none) : (l1 ++ l2).find? p = l2.find? p := by
  induction l1 with
  | nil => simp
  | cons e es ih =>
    have hpe : p e = false := by
      cases hpe : p e
      · rfl
      · rw [List.find?_cons_of_pos _ hpe] at h
        cases h
    have hes : es.find? p = none := by
      rwa [List.find?_cons_of_neg _ (by simp [hpe])] at h
    rw [List.cons_append, List.find?_cons_of_neg _ (by simp [hpe]), ih hes]

/-- C4: get-by-id fails exactly when the id is malformed or matches no record,
malformed and missing ids collapse to the same NotFound error, and no error
other than the 404 NotFound is ever surfaced. -/
theorem get_notfound_uniform (s : Store) (id : String) :
    (get_appointment s id = .error notFoundError ↔
      parseObjectId id = none ∨
        ∃ oid, parseObjectId id = some oid ∧ findOneDoc s oid = none) ∧
    ∀ er, get_appointment s id = .error er → er = notFoundError := by
  cases hp : parseObjectId id with
  | none =>
    refine ⟨?_, ?_⟩
    · simp [get_appointment, hp]
    · intro er her
      simp [get_appointment, hp] at her
      exact her.symm
  | some oid =>
    cases hf : findOneDoc s oid with
    | none =>
      refine ⟨?_, ?_⟩
      · simp [get_appointment, hp, hf]
      · intro er her
        simp [get_appointment, hp, hf] at her
        exact her.symm
    | some d =>
      refine ⟨?_, ?_⟩
      · simp [get_appointment, hp, hf]
      · intro er her
        simp [get_appointment, hp, hf] at her

/-- Witness for C4: fetching a well-formed but absent id from the empty store. -/
theorem get_notfound_uniform_witness :
    get_appointment emptyStore (oidToString 0) = .error notFoundError :=
  (get_notfound_uniform emptyStore (oidToString 0)).1.mpr (Or.inr ⟨0, rfl, rfl⟩)

/-- C5: fetching by the identifier returned from a create yields exactly the
record create returned (requires the store's ObjectId counter to be a valid
12-byte ObjectId and fresh, as MongoDB guarantees). -/
theorem create_then_get_roundtrip (s : Store) (p : AppointmentCreate)
    (hbound : s.nextOid < 16 ^ 24)
    (hfresh : ∀ e ∈ s.docs, e.1 ≠ s.nextOid) :
    get_appointment (create_appointment s p).1 (create_appointment s p).2.id =
      .ok (create_appointment s p).2 := by
  have hid : (create_appointment s p).2.id = oidToString s.nextOid := rfl
  have hparse := parseObjectId_oidToString s.nextOid hbound
  have hfind : findOneDoc (create_appointment s p).1 s.nextOid = some p := by
    rw [findOneDoc]
    show (((s.docs ++ [(s.nextOid, p)]).find? fun e => e.1 == s.nextOid).map (·.2)) =
      some p
    rw [find?_append_of_none _ s.docs _ (find?_eq_none_of_keys s.nextOid s.docs hfresh)]
    simp [List.find?]
  rw [hid]
  simp only [get_appointment, hparse, hfind]
  rfl

/-- Witness for C5: round trip through the empty store. -/
theorem create_then_get_roundtrip_witness :
    get_appointment (create_appointment emptyStore sampleCreate).1
        (create_appointment emptyStore sampleCreate).2.id =
      .ok (create_appointment emptyStore sampleCreate).2 :=
  create_then_get_roundtrip emptyStore sampleCreate (by norm_num [emptyStore])
    (by simp [emptyStore])

/-- C6: approving an existing record stores it, under the same identifier,
with status exactly "Approved" and every other field unchanged, changes no
other record, and 404s exactly when the store reports zero modified documents
— which happens exactly when the record was already "Approved". -/
theorem approve_sets_status_only (s : Store) (id : String) (oid : Nat)
    (old : AppointmentBase)
    (hparse : parseObjectId id = some oid)
    (hfind : findOneDoc s oid = some old) :
    findOneDoc (approve_appointment s id).1 oid =
      some { old with status := some "Approved" } ∧
    (∀ b, b ≠ oid → findOneDoc (approve_appointment s id).1 b = findOneDoc s b) ∧
    ((approve_appointment s id).2 = .error notFoundError ↔
      requestModifiedCount s id (fun d => { d with status := some "Approved" }) = 0) ∧
    (requestModifiedCount s id (fun d => { d with status := some "Approved" }) = 0 ↔
      old.status = some "Approved") := by
  by_cases hst : old.status = some "Approved"
  · have heq : { old with status := some "Approved" } = old := setStatus_self old _ hst
    have h0 := updateOneWith_of_eq s oid (fun d => { d with status := some "Approved" })
      old hfind heq
    refine ⟨?_, ?_, ?_, ?_⟩
    · simp [approve_appointment, hparse, h0, heq, hfind]
    · intro b hb
      simp [approve_appointment, hparse, h0]
    · simp [approve_appointment, requestModifiedCount, hparse, h0]
    · simp [requestModifiedCount, hparse, h0, hst]
  · have hne : { old with status := some "Approved" } ≠ old := fun hc => hst (by rw [← hc])
    have h1 := updateOneWith_of_ne s oid (fun d => { d with status := some "Approved" })
      old hfind hne
    have hfound :=
      findOneDoc_setFirst_self s oid { old with status := some "Approved" } old hfind
    refine ⟨?_, ?_, ?_, ?_⟩
    · simp [approve_appointment, hparse, h1, hfound]
    · intro b hb
      simp only [approve_appointment, hparse, h1]
      simpa using findOneDoc_setFirst_ne s oid b { old with status := some "Approved" } hb
    · simp [approve_appointment, requestModifiedCount, hparse, h1]
    · simp [requestModifiedCount, hparse, h1, hst]

/-- Witness for C6: approving the pending record of `store1`. -/
theorem approve_sets_status_only_witness :
    findOneDoc (approve_appointment store1 (oidToString 0)).1 0 =
      some { sampleCreate with status := some "Approved" } :=
  (approve_sets_status_only store1 (oidToString 0) 0 sampleCreate rfl rfl).1

/-- C7: setting the zoom link of an existing record stores it, under the same
identifier, with `zoom_link` exactly the supplied string and every other field
unchanged, changes no other record, and 404s exactly when the store reports
zero modified documents — which happens exactly when the record already
carried that exact link. -/
theorem zoom_link_sets_only_link (s : Store) (id : String) (zl : String)
    (oid : Nat) (old : AppointmentBase)
    (hparse : parseObjectId id = some oid)
    (hfind : findOneDoc s oid = some old) :
    findOneDoc (set_zoom_link s id zl).1 oid =
      some { old with zoom_link := some zl } ∧
    (∀ b, b ≠ oid → findOneDoc (set_zoom_link s id zl).1 b = findOneDoc s b) ∧
    ((set_zoom_link s id zl).2 = .error notFoundError ↔
      requestModifiedCount s id (fun d => { d with zoom_link := some zl }) = 0) ∧
    (requestModifiedCount s id (fun d => { d with zoom_link := some zl }) = 0 ↔
      old.zoom_link = some zl) := by
  by_cases hzl : old.zoom_link = some zl
  · have heq : { old with zoom_link := some zl } = old := setZoom_self old _ hzl
    have h0 := updateOneWith_of_eq s oid (fun d => { d with zoom_link := some zl })
      old hfind heq
    refine ⟨?_, ?_, ?_, ?_⟩
    · simp [set_zoom_link, hparse, h0, heq, hfind]
    · intro b hb
      simp [set_zoom_link, hparse, h0]
    · simp [set_zoom_link, requestModifiedCount, hparse, h0]
    · simp [requestModifiedCount, hparse, h0, hzl]
  · have hne : { old with zoom_link := some zl } ≠ old := fun hc => hzl (by rw [← hc])
    have h1 := updateOneWith_of_ne s oid (fun d => { d with zoom_link := some zl })
      old hfind hne
    have hfound :=
      findOneDoc_setFirst_self s oid { old with zoom_link := some zl } old hfind
    refine ⟨?_, ?_, ?_, ?_⟩
    · simp [set_zoom_link, hparse, h1, hfound]
    · intro b hb
      simp only [set_zoom_link, hparse, h1]
      simpa using findOneDoc_setFirst_ne s oid b { old with zoom_link := some zl } hb
    · simp [set_zoom_link, requestModifiedCount, hparse, h1]
    · simp [requestModifiedCount, hparse, h1, hzl]

/-- Witness for C7: adding a link to the record of `store1`. -/
theorem zoom_link_sets_only_link_witness :
    findOneDoc (set_zoom_link store1 (oidToString 0) "https://zoom.example/1").1 0 =
      some { sampleCreate with zoom_link := some "https://zoom.example/1" } :=
  (zoom_link_sets_only_link store1 (oidToString 0) "https://zoom.example/1" 0
    sampleCreate rfl rfl).1

/-- C10: an update whose payload leaves the optional fields at the pydantic
defaults (i.e. omits them) overwrites the stored values with those defaults:
an "Approved" record reverts to status "Pending" and its zoom link to absent,
instead of keeping its previous values. -/
theorem update_omitted_fields_reset (s : Store) (id : String) (oid : Nat)
    (old : AppointmentBase) (n e sv dt t tp : String)
    (hparse : parseObjectId id = some oid)
    (hfind : findOneDoc s oid = some old)
    (hstatus : old.status = some "Approved") :
    findOneDoc (update_appointment s id
        { name := n, email := e, service := sv, date := dt, time := t, topic := tp }).1 oid =
      some { name := n, email := e, service := sv, date := dt, time := t, topic := tp,
             status := some "Pending", zoom_link := none } := by
  have hne : ({ name := n, email := e, service := sv, date := dt, time := t,
                topic := tp } : AppointmentCreate) ≠ old := by
    intro hc
    rw [← hc] at hstatus
    exact absurd (Option.some.inj hstatus) (by decide)
  rw [update_appointment_of_changed s id _ oid old hparse hfind hne]
  exact findOneDoc_setFirst_self s oid _ old hfind

/-- Witness for C10: updating the approved record of `approvedStore` with a
payload that omits the optional fields reverts status to "Pending". -/
theorem update_omitted_fields_reset_witness :
    findOneDoc (update_appointment approvedStore (oidToString 0)
        { name := "B", email := "b@x.com", service := "Audit", date := "2024-02-02",
          time := "11:00", topic := "Next" }).1 0 =
      some { name := "B", email := "b@x.com", service := "Audit", date := "2024-02-02",
             time := "11:00", topic := "Next",
             status := some "Pending", zoom_link := none } :=
  update_omitted_fields_reset approvedStore (oidToString 0) 0
    { sampleCreate with status := some "Approved" }
    "B" "b@x.com" "Audit" "2024-02-02" "11:00" "Next" rfl rfl rfl

lemma findOneDoc_eraseFirst_self (s : Store) (oid : Nat)
    (hnodup : (s.docs.map Prod.fst).Nodup) :
    findOneDoc { s with docs := eraseFirst oid s.docs } oid = none := by
  rw [findOneDoc]
  show (((eraseFirst oid s.docs).find? fun e => e.1 == oid).map (·.2)) = none
  rw [find?_eraseFirst_self oid s.docs hnodup]
  rfl

/-- C8: deleting an existing record succeeds and makes a subsequent fetch by
the same identifier 404 (in a store without duplicate keys, as MongoDB
guarantees); when nothing is removed — malformed identifier or no matching
record — the delete itself 404s. -/
theorem delete_removes_record (s : Store) (id : String)
    (hnodup : (s.docs.map Prod.fst).Nodup) :
    (∀ oid old, parseObjectId id = some oid → findOneDoc s oid = some old →
      (delete_appointment s id).2 = .ok "Appointment deleted successfully" ∧
      findOneDoc (delete_appointment s id).1 oid = none ∧
      get_appointment (delete_appointment s id).1 id = .error notFoundError) ∧
    ((parseObjectId id = none ∨
        ∃ oid, parseObjectId id = some oid ∧ findOneDoc s oid = none) →
      (delete_appointment s id).2 = .error notFoundError) := by
  cases hp : parseObjectId id with
  | none =>
    refine ⟨?_, ?_⟩
    · intro oid old hpo _
      simp at hpo
    · intro _
      simp [delete_appointment, hp]
  | some oid =>
    refine ⟨?_, ?_⟩
    · intro oid2 old hpo hfind
      obtain rfl := Option.some.inj hpo
      have hdel : deleteOneDoc s oid = ({ s with docs := eraseFirst oid s.docs }, 1) := by
        simp [deleteOneDoc, hfind]
      have hgone := findOneDoc_eraseFirst_self s oid hnodup
      refine ⟨?_, ?_, ?_⟩
      · simp [delete_appointment, hp, hdel]
      · simp [delete_appointment, hp, hdel, hgone]
      · simp [get_appointment, delete_appointment, hp, hdel, hgone]
    · intro h
      rcases h with h | ⟨oid2, hpo, hfn⟩
      · simp at h
      · obtain rfl := Option.some.inj hpo
        have h0 : deleteOneDoc s oid = (s, 0) := by
          simp [deleteOneDoc, hfn]
        simp [delete_appointment, hp, h0]

/-- Witness for C8: deleting the single record of `store1`, then fetching it. -/
theorem delete_removes_record_witness :
    (delete_appointment store1 (oidToString 0)).2 =
      .ok "Appointment deleted successfully" ∧
    get_appointment (delete_appointment store1 (oidToString 0)).1 (oidToString 0) =
      .error notFoundError := by
  have h := (delete_removes_record store1 (oidToString 0) (by decide)).1 0
    sampleCreate rfl rfl
  exact ⟨h.1, h.2.2⟩

lemma createMany_spec : ∀ (ps : List AppointmentCreate) (s : Store),
    ∃ new, (createMany s ps).1.docs = s.docs ++ new ∧
      (createMany s ps).2 = new.map (fun e => document_to_appointment e.1 e.2) ∧
      new.length = ps.length := by
  intro ps
  induction ps with
  | nil =>
    intro s
    exact ⟨[], by simp [createMany], rfl, rfl⟩
  | cons p rest ih =>
    intro s
    obtain ⟨new, h1, h2, h3⟩ := ih (create_appointment s p).1
    refine ⟨(s.nextOid, p) :: new, ?_, ?_, ?_⟩
    · rw [createMany]
      show (createMany (create_appointment s p).1 rest).1.docs = _
      rw [h1]
      show (s.docs ++ [(s.nextOid, p)]) ++ new = s.docs ++ ((s.nextOid, p) :: new)
      rw [List.append_assoc, List.singleton_append]
    · rw [createMany]
      show (create_appointment s p).2 :: (createMany (create_appointment s p).1 rest).2 = _
      rw [h2, List.map_cons]
      rfl
    · simp [h3]

/-- C9: after any sequence of creates, the list operation returns one response
record per document in the store — no filtering and no pagination — so it
returns `s.docs.length + N` records (hence at least `N`), and every one of the
`N` newly created records is among them. -/
theorem list_returns_all (s : Store) (ps : List AppointmentCreate) :
    get_appointments (createMany s ps).1 =
      (createMany s ps).1.docs.map (fun e => document_to_appointment e.1 e.2) ∧
    (get_appointments (createMany s ps).1).length = s.docs.length + ps.length ∧
    ∀ a ∈ (createMany s ps).2, a ∈ get_appointments (createMany s ps).1 := by
  obtain ⟨new, h1, h2, h3⟩ := createMany_spec ps s
  refine ⟨rfl, ?_, ?_⟩
  · rw [get_appointments, h1]
    simp [h3]
  · intro a ha
    rw [h2] at ha
    rw [get_appointments, h1, List.map_append]
    exact List.mem_append_right _ ha

/-- Witness for C3: the spec §8 example payload. -/
theorem create_defaults_pending_witness :
    (create_appointment emptyStore sampleCreate).2.status = some "Pending" ∧
    (create_appointment emptyStore sampleCreate).2.zoom_link = none ∧
    (create_appointment emptyStore sampleCreate).2.id ≠ "" :=
  create_defaults_pending emptyStore "A" "a@x.com" "Consult" "2024-01-01" "10:00" "Intro"

/-- Witness for C9: a record created in a batch of two appears in the listing. -/
theorem list_returns_all_witness :
    (create_appointment emptyStore sampleCreate).2 ∈
      get_appointments (createMany emptyStore [sampleCreate, sampleCreate2]).1 :=
  (list_returns_all emptyStore [sampleCreate, sampleCreate2]).2.2
    (create_appointment emptyStore sampleCreate).2 (by decide)
